import Mathlib

/-!
Verification development for the ChargeAPI relay (`main.py`).

The embedding models the three components of the service:
the operator classifier (`is_valid_phone`, `get_operator`), the payload
builder (`build_params`) and the relay caller (`process_charge`), together
with the parts of the Python runtime the code leans on: `random.randint`
(modelled as a seed-indexed draw that lands in the requested inclusive
range), `str.replace(old, "", 1)` (first-occurrence removal), the anchored
regular expression `^\((.*)\)$` with DOTALL used for JSONP unwrapping, and
`json.loads` (modelled on the JSON fragment the service can meet: null,
booleans, integers, strings with single-character escapes, arrays and
objects; floats and unicode escapes are left out).
-/

namespace ChargeAPI

/-- Model of the character class `\d` of the Python regexes in `main.py`,
restricted to ASCII decimal digits. -/
def pyDigit (c : Char) : Bool := c.isDigit

/-- Source `re.fullmatch(r"09[03]\d{8}", phone)` from `get_operator`. -/
def match_09_03 (l : List Char) : Bool :=
  match l with
  | a :: b :: c :: rest =>
      a == '0' && b == '9' && (c == '0' || c == '3') &&
        rest.length == 8 && rest.all pyDigit
  | _ => false

/-- Source `re.fullmatch(r"09[19]\d{8}", phone)` from `get_operator`. -/
def match_09_19 (l : List Char) : Bool :=
  match l with
  | a :: b :: c :: rest =>
      a == '0' && b == '9' && (c == '1' || c == '9') &&
        rest.length == 8 && rest.all pyDigit
  | _ => false

/-- Source `re.fullmatch(r"094\d{8}", phone)` from `get_operator`. -/
def match_094 (l : List Char) : Bool :=
  match l with
  | a :: b :: c :: rest =>
      a == '0' && b == '9' && c == '4' &&
        rest.length == 8 && rest.all pyDigit
  | _ => false

/-- Source `re.fullmatch(r"092[0-2]\d{7}", phone)` from `get_operator`. -/
def match_092_02 (l : List Char) : Bool :=
  match l with
  | a :: b :: c :: d :: rest =>
      a == '0' && b == '9' && c == '2' &&
        (d == '0' || d == '1' || d == '2') &&
        rest.length == 7 && rest.all pyDigit
  | _ => false

/-- Source `is_valid_phone` of `main.py`:
`re.fullmatch(r"09\d{9}", phone)` turned into a Bool. -/
def is_valid_phone (phone : String) : Bool :=
  match phone.data with
  | a :: b :: rest =>
      a == '0' && b == '9' && rest.length == 9 && rest.all pyDigit
  | _ => false

/-- Source `get_operator` of `main.py`: the prefix rules tried in order,
first match winning. -/
def get_operator (phone : String) (super_charge : Bool) (daemi : Bool) :
    Option String :=
  if match_09_03 phone.data then
    if super_charge then some ("!MTN")
    else if daemi then some ("#MTN")
    else some ("MTN")
  else if match_09_19 phone.data then some ("MCI")
  else if match_094 phone.data then some ("WiMax")
  else if match_092_02 phone.data then
    if super_charge then some ("!RTL") else some ("RTL")
  else none

/-! Spec-side readings of the four classifier patterns, written from the
words of the specification ("09[03] followed by 8 digits", etc.), to be
compared with the regex matchers taken from the source. -/

/-- Spec wording of rule 1: the phone is `09`, then `0` or `3`, then 8
digits. -/
def specPat_MTN (l : List Char) : Prop :=
  ∃ c ds, l = '0' :: '9' :: c :: ds ∧ (c = '0' ∨ c = '3') ∧
    ds.length = 8 ∧ ds.all pyDigit = true

/-- Spec wording of rule 2: the phone is `09`, then `1` or `9`, then 8
digits. -/
def specPat_MCI (l : List Char) : Prop :=
  ∃ c ds, l = '0' :: '9' :: c :: ds ∧ (c = '1' ∨ c = '9') ∧
    ds.length = 8 ∧ ds.all pyDigit = true

/-- Spec wording of rule 3: the phone is `094`, then 8 digits. -/
def specPat_WiMax (l : List Char) : Prop :=
  ∃ ds, l = '0' :: '9' :: '4' :: ds ∧ ds.length = 8 ∧ ds.all pyDigit = true

/-- Spec wording of rule 4: the phone is `092`, then `0`, `1` or `2`, then
7 digits. -/
def specPat_RTL (l : List Char) : Prop :=
  ∃ d ds, l = '0' :: '9' :: '2' :: d :: ds ∧ (d = '0' ∨ d = '1' ∨ d = '2') ∧
    ds.length = 7 ∧ ds.all pyDigit = true

lemma match_09_03_iff (l : List Char) : match_09_03 l = true ↔ specPat_MTN l := by
  constructor
  · intro h
    rcases l with _ | ⟨a, _ | ⟨b, _ | ⟨c, ds⟩⟩⟩ <;>
      simp [match_09_03, specPat_MTN] at h ⊢
    obtain ⟨⟨⟨⟨ha, hb⟩, hc⟩, hlen⟩, hdig⟩ := h
    exact ⟨c, ds, ⟨ha, hb, rfl, rfl⟩, hc, hlen, hdig⟩
  · rintro ⟨c, ds, rfl, hc, hlen, hdig⟩
    rcases hc with rfl | rfl <;> simp [match_09_03, hlen, hdig]

lemma match_09_19_iff (l : List Char) : match_09_19 l = true ↔ specPat_MCI l := by
  constructor
  · intro h
    rcases l with _ | ⟨a, _ | ⟨b, _ | ⟨c, ds⟩⟩⟩ <;>
      simp [match_09_19, specPat_MCI] at h ⊢
    obtain ⟨⟨⟨⟨ha, hb⟩, hc⟩, hlen⟩, hdig⟩ := h
    exact ⟨c, ds, ⟨ha, hb, rfl, rfl⟩, hc, hlen, hdig⟩
  · rintro ⟨c, ds, rfl, hc, hlen, hdig⟩
    rcases hc with rfl | rfl <;> simp [match_09_19, hlen, hdig]

lemma match_094_iff (l : List Char) : match_094 l = true ↔ specPat_WiMax l := by
  constructor
  · intro h
    rcases l with _ | ⟨a, _ | ⟨b, _ | ⟨c, ds⟩⟩⟩ <;>
      simp [match_094, specPat_WiMax] at h ⊢
    obtain ⟨⟨⟨⟨ha, hb⟩, hc⟩, hlen⟩, hdig⟩ := h
    exact ⟨ds, ⟨ha, hb, hc, rfl⟩, hlen, hdig⟩
  · rintro ⟨ds, rfl, hlen, hdig⟩
    simp [match_094, hlen, hdig]

lemma match_092_02_iff (l : List Char) :
    match_092_02 l = true ↔ specPat_RTL l := by
  constructor
  · intro h
    rcases l with _ | ⟨a, _ | ⟨b, _ | ⟨c, _ | ⟨d, ds⟩⟩⟩⟩ <;>
      simp [match_092_02, specPat_RTL] at h ⊢
    obtain ⟨⟨⟨⟨⟨ha, hb⟩, hc⟩, hd⟩, hlen⟩, hdig⟩ := h
    exact ⟨d, ds, ⟨ha, hb, hc, rfl, rfl⟩, or_assoc.mp hd, hlen, hdig⟩
  · rintro ⟨d, ds, rfl, hd, hlen, hdig⟩
    rcases hd with rfl | rfl | rfl <;> simp [match_092_02, hlen, hdig]

lemma bool_eq_false {b : Bool} (h : ¬ b = true) : b = false := by
  cases b
  · rfl
  · exact absurd rfl h

lemma matcher_eq_false {b : Bool} {P : Prop} (hiff : b = true ↔ P) (hn : ¬ P) :
    b = false :=
  bool_eq_false (fun h => hn (hiff.1 h))

lemma valid_of_shape3 (phone : String) (c : Char) (ds : List Char)
    (hp : phone.data = '0' :: '9' :: c :: ds) (hcd : pyDigit c = true)
    (hlen : ds.length = 8) (hdig : ds.all pyDigit = true) :
    is_valid_phone phone = true := by
  simp [is_valid_phone, hp, hcd, hdig, hlen]

lemma valid_of_shape4 (phone : String) (d : Char) (ds : List Char)
    (hp : phone.data = '0' :: '9' :: '2' :: d :: ds) (hcd : pyDigit d = true)
    (hlen : ds.length = 7) (hdig : ds.all pyDigit = true) :
    is_valid_phone phone = true := by
  simp [is_valid_phone, hp, hcd, hdig, hlen, (by decide : pyDigit '2' = true)]

/-- C1: the operator classifier follows the spec's rule table: phones of
shape `09[03]` plus 8 digits give `!MTN` under `super`, `#MTN` under
`daemi`, else `MTN`; `09[19]` plus 8 digits gives `MCI`; `094` plus 8
digits gives `WiMax`; `092[0-2]` plus 7 digits gives `!RTL` under `super`
else `RTL`; everything else is not found (`none`). -/
theorem C1_get_operator_rules (phone : String) (sup dae : Bool) :
    (specPat_MTN phone.data →
      get_operator phone sup dae =
        some (if sup then ("!MTN") else if dae then ("#MTN") else ("MTN")))
    ∧ (specPat_MCI phone.data → get_operator phone sup dae = some ("MCI"))
    ∧ (specPat_WiMax phone.data → get_operator phone sup dae = some ("WiMax"))
    ∧ (specPat_RTL phone.data →
      get_operator phone sup dae = some (if sup then ("!RTL") else ("RTL")))
    ∧ (¬ specPat_MTN phone.data ∧ ¬ specPat_MCI phone.data ∧
        ¬ specPat_WiMax phone.data ∧ ¬ specPat_RTL phone.data →
      get_operator phone sup dae = none) := by
  refine ⟨?_, ?_, ?_, ?_, ?_⟩
  · rintro ⟨c, ds, hp, hc, hlen, hdig⟩
    have h03 : match_09_03 phone.data = true :=
      (match_09_03_iff _).2 ⟨c, ds, hp, hc, hlen, hdig⟩
    cases sup <;> cases dae <;> simp [get_operator, h03]
  · rintro ⟨c, ds, hp, hc, hlen, hdig⟩
    have h19 : match_09_19 phone.data = true :=
      (match_09_19_iff _).2 ⟨c, ds, hp, hc, hlen, hdig⟩
    have h03 : match_09_03 phone.data = false := by
      rw [hp]; rcases hc with rfl | rfl <;> rfl
    simp [get_operator, h03, h19]
  · rintro ⟨ds, hp, hlen, hdig⟩
    have h94 : match_094 phone.data = true :=
      (match_094_iff _).2 ⟨ds, hp, hlen, hdig⟩
    have h03 : match_09_03 phone.data = false := by rw [hp]; rfl
    have h19 : match_09_19 phone.data = false := by rw [hp]; rfl
    simp [get_operator, h03, h19, h94]
  · rintro ⟨d, ds, hp, hd, hlen, hdig⟩
    have h92 : match_092_02 phone.data = true :=
      (match_092_02_iff _).2 ⟨d, ds, hp, hd, hlen, hdig⟩
    have h03 : match_09_03 phone.data = false := by rw [hp]; rfl
    have h19 : match_09_19 phone.data = false := by rw [hp]; rfl
    have h94 : match_094 phone.data = false := by rw [hp]; rfl
    cases sup <;> simp [get_operator, h03, h19, h94, h92]
  · rintro ⟨hn1, hn2, hn3, hn4⟩
    have h03 := matcher_eq_false (match_09_03_iff phone.data) hn1
    have h19 := matcher_eq_false (match_09_19_iff phone.data) hn2
    have h94 := matcher_eq_false (match_094_iff phone.data) hn3
    have h92 := matcher_eq_false (match_092_02_iff phone.data) hn4
    simp [get_operator, h03, h19, h94, h92]

/-- Witness for C1 at the phone `09312345678` with `super` set: rule 1
fires and yields `!MTN`. -/
theorem C1_get_operator_rules_witness :
    get_operator ("09312345678") true false = some ("!MTN") :=
  (C1_get_operator_rules ("09312345678") true false).1
    ⟨'3', ['1', '2', '3', '4', '5', '6', '7', '8'],
      by decide, Or.inr rfl, by decide, by decide⟩

/-- C9: whenever the classifier finds an operator, the phone also passes
the general validity check (11 digits starting `09`). -/
theorem C9_classifier_subset_valid (phone : String) (sup dae : Bool)
    (op : String) (h : get_operator phone sup dae = some op) :
    is_valid_phone phone = true := by
  by_cases h03 : match_09_03 phone.data = true
  · obtain ⟨c, ds, hp, hc, hlen, hdig⟩ := (match_09_03_iff _).1 h03
    exact valid_of_shape3 phone c ds hp
      (by rcases hc with rfl | rfl <;> decide) hlen hdig
  by_cases h19 : match_09_19 phone.data = true
  · obtain ⟨c, ds, hp, hc, hlen, hdig⟩ := (match_09_19_iff _).1 h19
    exact valid_of_shape3 phone c ds hp
      (by rcases hc with rfl | rfl <;> decide) hlen hdig
  by_cases h94 : match_094 phone.data = true
  · obtain ⟨ds, hp, hlen, hdig⟩ := (match_094_iff _).1 h94
    exact valid_of_shape3 phone '4' ds hp (by decide) hlen hdig
  by_cases h92 : match_092_02 phone.data = true
  · obtain ⟨d, ds, hp, hd, hlen, hdig⟩ := (match_092_02_iff _).1 h92
    exact valid_of_shape4 phone d ds hp
      (by rcases hd with rfl | rfl | rfl <;> decide) hlen hdig
  · simp [get_operator, bool_eq_false h03, bool_eq_false h19,
      bool_eq_false h94, bool_eq_false h92] at h

/-- Witness for C9 at the phone `09121234567`, classified as `MCI`. -/
theorem C9_classifier_subset_valid_witness :
    is_valid_phone ("09121234567") = true :=
  C9_classifier_subset_valid ("09121234567") false false ("MCI") (by decide)

/-! Payload builder. -/

/-- Model of Python `random.randint lo hi` (both bounds inclusive): a draw
indexed by an arbitrary seed, always landing in `[lo, hi]`. -/
def randint (lo hi seed : Nat) : Nat := lo + seed % (hi + 1 - lo)

lemma randint_mem (lo hi seed : Nat) (h : lo ≤ hi) :
    lo ≤ randint lo hi seed ∧ randint lo hi seed ≤ hi := by
  unfold randint
  have hm : seed % (hi + 1 - lo) < hi + 1 - lo :=
    Nat.mod_lt _ (by omega)
  omega

/-- Closed instance of `randint_mem` at the 13-digit nonce range used by
`build_params`. -/
theorem randint_mem_closed :
    1111111111111 ≤ randint 1111111111111 9999999999999 5 ∧
      randint 1111111111111 9999999999999 5 ≤ 9999999999999 :=
  randint_mem 1111111111111 9999999999999 5 (by norm_num)

/-- Source constant `REDIRECT_URL` of `main.py`. -/
def REDIRECT_URL : String := "https://domain.com/charge.php"

/-- Source `charge_type` values: pydantic validates the request body
against `Literal["direct", "pincode"]`, so only these two values reach the
handler. -/
inductive ChargeType where
  | direct
  | pincode
deriving DecidableEq, Repr

/-- Source constant `API_URLS` of `main.py`: endpoint per charge type.
The dictionary lookup is total because `charge_type` is validated. -/
def API_URLS : ChargeType → String
  | .direct => "https://chr724.ir/services/v3/EasyCharge/TopUp"
  | .pincode => "https://chr724.ir/services/v3/EasyCharge/BuyProduct"

/-- Scalar values stored in the outgoing parameter dictionary: strings,
integers, or Python `None` (the type of the `WEB_ID` global when the
environment variable is absent). -/
inductive PValue where
  | str (v : String)
  | int (v : Int)
  | none
deriving DecidableEq, Repr

/-- The `WEB_ID` global is `os.getenv(...)`: a string or `None`. -/
def pvalOfWebId : Option String → PValue
  | some s => .str s
  | Option.none => .none

/-- The `request_data` dictionary built in `process_charge` and passed to
`build_params`. -/
structure RequestData where
  amount : Int
  phone : String
  operator : String
  type : ChargeType
deriving Repr

/-- Source `build_params` of `main.py`: the fixed reseller parameters,
one fresh 13-digit draw under key `_`, the per-request fields, and the
conditional `productId` for pincode requests. Python dict insertion order
is kept as list order; all keys are distinct. -/
def build_params (webId : Option String) (data : RequestData) (seed : Nat) :
    List (String × PValue) :=
  [("data[webserviceId]", pvalOfWebId webId),
   ("data[redirectUrl]", PValue.str REDIRECT_URL),
   ("data[count]", PValue.int 1),
   ("data[email]", PValue.str ("")),
   ("data[packageId]", PValue.str ("")),
   ("data[billId]", PValue.str ("")),
   ("data[paymentId]", PValue.str ("")),
   ("data[issuer]", PValue.str ("")),
   ("data[paymentDetails]", PValue.str ("true")),
   ("data[redirectToPage]", PValue.str ("true")),
   ("data[scriptVersion]", PValue.str ("Script-fluent-1.7")),
   ("data[firstOutputType]", PValue.str ("json")),
   ("data[isTarabord]", PValue.str ("false")),
   ("data[secondOutputType]", PValue.str ("get")),
   ("data[ChargeKind]", PValue.str ("")),
   ("_", PValue.int (randint 1111111111111 9999999999999 seed)),
   ("data[amount]", PValue.int data.amount),
   ("data[cellphone]", PValue.str data.phone),
   ("data[type]", PValue.str data.operator)] ++
  (if data.type = ChargeType.pincode then
    [("data[productId]",
      PValue.str ("CC-" ++ data.operator ++ "-" ++ toString data.amount))]
  else [])

/-- Source line 147 of `main.py`: the JSONP callback name, a vendor tag
followed by two 10-digit draws separated by an underscore. -/
def callback_name_of (s1 s2 : Nat) : String :=
  "Shayan Golmezerji" ++ toString (randint 1111111111 9999999999 s1) ++
    "_" ++ toString (randint 1111111111 9999999999 s2)

/-! Relay caller: JSONP unwrapping and JSON parsing. -/

/-- Model of Python `body.replace(pat, "", 1)`: remove the first
occurrence of `pat`, leave the rest untouched. -/
def dropFirstOcc (pat : List Char) : List Char → List Char
  | [] => []
  | c :: cs =>
      if pat.isPrefixOf (c :: cs) then (c :: cs).drop pat.length
      else c :: dropFirstOcc pat cs

/-- Model of `re.search(r"^\((.*)\)$", text, re.DOTALL)`: anchored at the
start; `$` matches at the end of the string or just before one final
newline; the greedy group captures everything between the opening
parenthesis and the last closing one. Returns the captured group. -/
def regexParenGroup (s : List Char) : Option (List Char) :=
  let core := match s.getLast? with
    | some c => if c = '\n' then s.dropLast else s
    | Option.none => s
  match core with
  | '(' :: rest =>
      match rest.getLast? with
      | some c => if c = ')' then some rest.dropLast else Option.none
      | Option.none => Option.none
  | _ => Option.none

/-- JSON values as produced by `json.loads` (Python returns None, bool,
int, str, list and dict; dicts keep insertion order). -/
inductive Json where
  | null
  | boolean (b : Bool)
  | intNum (n : Int)
  | string (s : String)
  | array (items : List Json)
  | object (pairs : List (String × Json))
deriving Repr

/-- JSON whitespace accepted between tokens. -/
def isWsChar (c : Char) : Bool :=
  c = ' ' || c = '\t' || c = '\n' || c = '\r'

def skipWs (cs : List Char) : List Char := cs.dropWhile isWsChar

/-- Single-character string escapes of JSON. Unicode escapes `\uXXXX` are
not modelled. -/
def escChar : Char → Option Char
  | '"' => some '"'
  | '\\' => some '\\'
  | '/' => some '/'
  | 'b' => some (Char.ofNat 8)
  | 'f' => some (Char.ofNat 12)
  | 'n' => some '\n'
  | 'r' => some '\r'
  | 't' => some '\t'
  | _ => Option.none

/-- Body of a JSON string after the opening quote: strict mode rejects raw
control characters. Accumulates into `acc` (reversed). -/
def parseJStrBody : Nat → List Char → List Char → Option (String × List Char)
  | 0, _, _ => Option.none
  | _ + 1, _, [] => Option.none
  | fuel + 1, acc, c :: rest =>
      if c = '"' then some (String.mk acc.reverse, rest)
      else if c = '\\' then
        match rest with
        | [] => Option.none
        | e :: rest2 =>
            match escChar e with
            | some d => parseJStrBody fuel (d :: acc) rest2
            | Option.none => Option.none
      else if c.toNat < 32 then Option.none
      else parseJStrBody fuel (c :: acc) rest

def digitsToNat (ds : List Char) : Nat :=
  ds.foldl (fun a c => 10 * a + (c.toNat - 48)) 0

/-- JSON number parsing, restricted to integers: an optional minus sign,
digits without a redundant leading zero, and no fraction or exponent
(floats are outside the model). -/
def parseJNum (cs : List Char) : Option (Json × List Char) :=
  let p := match cs with
    | '-' :: t => (true, t)
    | _ => (false, cs)
  let ds := p.2.takeWhile Char.isDigit
  let rest := p.2.dropWhile Char.isDigit
  if ds.isEmpty then Option.none
  else if 1 < ds.length ∧ ds.headD '1' = '0' then Option.none
  else
    match rest with
    | '.' :: _ => Option.none
    | 'e' :: _ => Option.none
    | 'E' :: _ => Option.none
    | _ =>
        let n : Int := Int.ofNat (digitsToNat ds)
        some (Json.intNum (if p.1 then -n else n), rest)

mutual

/-- Recursive-descent JSON value parser, fuelled. -/
def parseJValue : Nat → List Char → Option (Json × List Char)
  | 0, _ => Option.none
  | fuel + 1, cs =>
      match skipWs cs with
      | '{' :: rest =>
          match skipWs rest with
          | '}' :: rest2 => some (Json.object [], rest2)
          | cs2 => parseJObjBody fuel cs2 []
      | '[' :: rest =>
          match skipWs rest with
          | ']' :: rest2 => some (Json.array [], rest2)
          | cs2 => parseJArrBody fuel cs2 []
      | '"' :: rest =>
          match parseJStrBody (rest.length + 1) [] rest with
          | some (s, rest2) => some (Json.string s, rest2)
          | Option.none => Option.none
      | 't' :: 'r' :: 'u' :: 'e' :: rest => some (Json.boolean true, rest)
      | 'f' :: 'a' :: 'l' :: 's' :: 'e' :: rest => some (Json.boolean false, rest)
      | 'n' :: 'u' :: 'l' :: 'l' :: rest => some (Json.null, rest)
      | cs2 => parseJNum cs2

/-- Array elements after the first opening bracket (nonempty case). -/
def parseJArrBody : Nat → List Char → List Json → Option (Json × List Char)
  | 0, _, _ => Option.none
  | fuel + 1, cs, acc =>
      match parseJValue fuel cs with
      | Option.none => Option.none
      | some (v, rest) =>
          match skipWs rest with
          | ',' :: rest2 => parseJArrBody fuel rest2 (acc ++ [v])
          | ']' :: rest2 => some (Json.array (acc ++ [v]), rest2)
          | _ => Option.none

/-- Object members after the opening brace (nonempty case). -/
def parseJObjBody : Nat → List Char → List (String × Json) →
    Option (Json × List Char)
  | 0, _, _ => Option.none
  | fuel + 1, cs, acc =>
      match skipWs cs with
      | '"' :: rest =>
          match parseJStrBody (rest.length + 1) [] rest with
          | Option.none => Option.none
          | some (k, rest2) =>
              match skipWs rest2 with
              | ':' :: rest3 =>
                  match parseJValue fuel rest3 with
                  | Option.none => Option.none
                  | some (v, rest4) =>
                      match skipWs rest4 with
                      | ',' :: rest5 => parseJObjBody fuel rest5 (acc ++ [(k, v)])
                      | '}' :: rest5 => some (Json.object (acc ++ [(k, v)]), rest5)
                      | _ => Option.none
              | _ => Option.none
      | _ => Option.none

end

/-- Model of `json.loads` on the JSON fragment described above: parse one
value, allow surrounding whitespace, reject leftovers. -/
def json_loads (s : String) : Option Json :=
  match parseJValue (2 * s.data.length + 2) s.data with
  | some (j, rest) => if skipWs rest = [] then some j else Option.none
  | Option.none => Option.none

/-- Endpoint outcomes: a 200 response with the unwrapped JSON, or an
`HTTPException` with the given status code. -/
inductive ChargeResult where
  | ok (value : Json)
  | httpError (statusCode : Nat)
deriving Repr

/-- Status code of an endpoint outcome (200 on success). -/
def statusOf : ChargeResult → Nat
  | .ok _ => 200
  | .httpError n => n

/-- Source lines 155-164 of `main.py`: match `^\((.*)\)$` against the
response text, `json.loads` the group on success, else raise 502; a JSON
decode error is caught by the `json.JSONDecodeError` handler, also 502. -/
def parse_wrapped (response_text : String) : ChargeResult :=
  match regexParenGroup response_text.data with
  | some inner =>
      match json_loads (String.mk inner) with
      | some j => ChargeResult.ok j
      | Option.none => ChargeResult.httpError 502
  | Option.none => ChargeResult.httpError 502

/-- Source lines 154-164 of `main.py`: strip the first occurrence of the
callback name from the body, then unwrap and parse. -/
def unwrap_and_parse (callback_name : String) (body : String) : ChargeResult :=
  parse_wrapped (String.mk (dropFirstOcc callback_name.data body.data))

/-! The endpoint. -/

/-- Source `ChargeRequest` pydantic model: the typed body of `POST /charge`
after framework validation. -/
structure ChargeRequest where
  amount : Int
  phone : String
  super : Bool
  daemi : Bool
  charge_type : ChargeType
deriving Repr

/-- Source test `if not WEB_ID`: Python falsiness of `os.getenv`, true when
the variable is unset or the empty string. -/
def webIdMissing : Option String → Bool
  | Option.none => true
  | some s => s == ""

/-- One outbound `requests.get` call: target URL, query parameters, and the
client-side timeout handed to `requests` (the source passes none). -/
structure OutboundCall where
  url : String
  params : List (String × PValue)
  timeout : Option Nat
deriving Repr

/-- Behaviour of the upstream service on the single outbound call:
`requests.get` raises `Timeout` or `ConnectionError` (both subclasses of
`RequestException`), or delivers a final response with a status code and a
text body. -/
inductive UpstreamOutcome where
  | timeout
  | connectionError
  | response (statusCode : Nat) (body : String)
deriving Repr

/-- Source `process_charge` of `main.py`. Randomness is exposed as seeds:
`s0` for the `_` nonce drawn inside `build_params`, `s1`/`s2` for the two
draws of the callback name. The returned list records the outbound calls
made (the source issues at most one and never retries). Exception
behaviour of the `try` block: `Timeout`, `ConnectionError` and the
`HTTPError` raised by `raise_for_status` on a 4xx or 5xx status are all
`RequestException`s and map to 503; a failed JSON decode maps to 502
inside `unwrap_and_parse`. -/
def process_charge (webId : Option String) (req : ChargeRequest)
    (s0 s1 s2 : Nat) (upstream : UpstreamOutcome) :
    ChargeResult × List OutboundCall :=
  if webIdMissing webId then (ChargeResult.httpError 500, [])
  else if ¬ (2000 ≤ req.amount ∧ req.amount ≤ 20000) then
    (ChargeResult.httpError 400, [])
  else if ! is_valid_phone req.phone then (ChargeResult.httpError 400, [])
  else
    match get_operator req.phone req.super req.daemi with
    | Option.none => (ChargeResult.httpError 400, [])
    | some operator =>
        let request_data : RequestData :=
          ⟨req.amount, req.phone, operator, req.charge_type⟩
        let callback_name := callback_name_of s1 s2
        let params := build_params webId request_data s0 ++
          [("callback", PValue.str callback_name)]
        let call : OutboundCall :=
          ⟨API_URLS req.charge_type, params, Option.none⟩
        match upstream with
        | UpstreamOutcome.timeout => (ChargeResult.httpError 503, [call])
        | UpstreamOutcome.connectionError => (ChargeResult.httpError 503, [call])
        | UpstreamOutcome.response code body =>
            if 400 ≤ code ∧ code < 600 then (ChargeResult.httpError 503, [call])
            else (unwrap_and_parse callback_name body, [call])

/-- When configuration and validation pass, the endpoint issues exactly one
outbound call and maps the upstream outcome as in the source `try` block. -/
lemma process_charge_reaches (webId : Option String) (req : ChargeRequest)
    (s0 s1 s2 : Nat) (up : UpstreamOutcome) (op : String)
    (h1 : webIdMissing webId = false)
    (h2 : 2000 ≤ req.amount ∧ req.amount ≤ 20000)
    (hph : is_valid_phone req.phone = true)
    (hop : get_operator req.phone req.super req.daemi = some op) :
    process_charge webId req s0 s1 s2 up =
      ((match up with
        | UpstreamOutcome.timeout => ChargeResult.httpError 503
        | UpstreamOutcome.connectionError => ChargeResult.httpError 503
        | UpstreamOutcome.response code body =>
            if 400 ≤ code ∧ code < 600 then ChargeResult.httpError 503
            else unwrap_and_parse (callback_name_of s1 s2) body),
       [⟨API_URLS req.charge_type,
         build_params webId ⟨req.amount, req.phone, op, req.charge_type⟩ s0 ++
           [("callback", PValue.str (callback_name_of s1 s2))],
         Option.none⟩]) := by
  cases up with
  | timeout => simp [process_charge, h1, h2.1, h2.2, hph, hop]
  | connectionError => simp [process_charge, h1, h2.1, h2.2, hph, hop]
  | response code body =>
      simp [process_charge, h1, h2.1, h2.2, hph, hop]
      split <;> rfl

/-- C7: when the classifier finds no operator for the phone, the endpoint
responds 400 and no outbound call is made (the phone-format 400 and the
operator-not-found 400 both precede the network call). -/
theorem C7_operator_not_found (webId : Option String) (req : ChargeRequest)
    (s0 s1 s2 : Nat) (up : UpstreamOutcome)
    (h1 : webIdMissing webId = false)
    (hop : get_operator req.phone req.super req.daemi = none) :
    process_charge webId req s0 s1 s2 up = (ChargeResult.httpError 400, []) := by
  by_cases h2 : 2000 ≤ req.amount ∧ req.amount ≤ 20000
  · by_cases hph : is_valid_phone req.phone = true
    · simp [process_charge, h1, h2.1, h2.2, hph, hop]
    · simp [process_charge, h1, h2.1, h2.2, bool_eq_false hph]
  · simp [process_charge, h1, h2]

/-- Witness for C7: a phone starting `00` matches no rule, so the endpoint
rejects with 400 and records no outbound call. -/
theorem C7_operator_not_found_witness :
    process_charge (some ("w"))
      ⟨5000, ("00123456789"), false, false, ChargeType.direct⟩ 0 0 0
      UpstreamOutcome.timeout = (ChargeResult.httpError 400, []) :=
  C7_operator_not_found (some ("w"))
    ⟨5000, ("00123456789"), false, false, ChargeType.direct⟩ 0 0 0
    UpstreamOutcome.timeout (by decide) (by decide)

/-- C4: an amount outside the inclusive range `[2000, 20000]` is rejected
with 400 before any outbound call; the boundary amounts 2000 and 20000 are
accepted (the request proceeds to exactly one outbound call). -/
theorem C4_amount_bounds (webId : Option String) (req : ChargeRequest)
    (s0 s1 s2 : Nat) (up : UpstreamOutcome) (ct : ChargeType)
    (h1 : webIdMissing webId = false) :
    (¬ (2000 ≤ req.amount ∧ req.amount ≤ 20000) →
      process_charge webId req s0 s1 s2 up = (ChargeResult.httpError 400, []))
    ∧ (process_charge webId ⟨2000, ("09121234567"), false, false, ct⟩
        s0 s1 s2 up).2.length = 1
    ∧ (process_charge webId ⟨20000, ("09121234567"), false, false, ct⟩
        s0 s1 s2 up).2.length = 1 := by
  refine ⟨?_, ?_, ?_⟩
  · intro h2
    simp [process_charge, h1, h2]
  · rw [process_charge_reaches webId _ s0 s1 s2 up ("MCI") h1
      ⟨by norm_num, by norm_num⟩ (by rfl) (by rfl)]
    rfl
  · rw [process_charge_reaches webId _ s0 s1 s2 up ("MCI") h1
      ⟨by norm_num, by norm_num⟩ (by rfl) (by rfl)]
    rfl

/-- Witness for C4 at amount 25000: out of range, rejected with 400 and no
outbound call. -/
theorem C4_amount_bounds_witness :
    ¬ (2000 ≤ (25000 : Int) ∧ (25000 : Int) ≤ 20000) ∧
      process_charge (some ("w"))
        ⟨25000, ("09121234567"), false, false, ChargeType.direct⟩ 0 0 0
        UpstreamOutcome.timeout = (ChargeResult.httpError 400, []) :=
  ⟨by decide,
    (C4_amount_bounds (some ("w"))
      ⟨25000, ("09121234567"), false, false, ChargeType.direct⟩ 0 0 0
      UpstreamOutcome.timeout ChargeType.direct (by decide)).1 (by decide)⟩

/-- Counterexample to C2 as stated: on an upstream timeout the endpoint
responds 503, not 504, and the single outbound GET carries no client-side
timeout at all (`requests.get` is called without a `timeout` argument). -/
theorem C2_counterexample :
    statusOf (process_charge (some ("w"))
      ⟨5000, ("09121234567"), false, false, ChargeType.direct⟩ 0 0 0
      UpstreamOutcome.timeout).1 = 503 ∧
    (503 : Nat) ≠ 504 ∧
    (process_charge (some ("w"))
      ⟨5000, ("09121234567"), false, false, ChargeType.direct⟩ 0 0 0
      UpstreamOutcome.timeout).2.map OutboundCall.timeout = [Option.none] := by
  refine ⟨rfl, by decide, rfl⟩

/-- C2 as amended: an upstream timeout yields HTTP 503 (it is caught as a
`RequestException` like every network error), the single outbound GET is
issued with no client-side timeout, and no retry happens (exactly one
outbound call per invocation). -/
theorem C2_timeout_behavior (webId : Option String) (req : ChargeRequest)
    (s0 s1 s2 : Nat) (op : String)
    (h1 : webIdMissing webId = false)
    (h2 : 2000 ≤ req.amount ∧ req.amount ≤ 20000)
    (hph : is_valid_phone req.phone = true)
    (hop : get_operator req.phone req.super req.daemi = some op) :
    (process_charge webId req s0 s1 s2 UpstreamOutcome.timeout).1 =
      ChargeResult.httpError 503 ∧
    (process_charge webId req s0 s1 s2 UpstreamOutcome.timeout).2.map
      OutboundCall.timeout = [Option.none] ∧
    (process_charge webId req s0 s1 s2 UpstreamOutcome.timeout).2.length = 1 := by
  rw [process_charge_reaches webId req s0 s1 s2 UpstreamOutcome.timeout op
    h1 h2 hph hop]
  exact ⟨rfl, rfl, rfl⟩

/-- Witness for C2 as amended, at a concrete valid MCI request. -/
theorem C2_timeout_behavior_witness :
    (process_charge (some ("w"))
      ⟨5000, ("09121234567"), false, false, ChargeType.direct⟩ 1 2 3
      UpstreamOutcome.timeout).1 = ChargeResult.httpError 503 ∧
    (process_charge (some ("w"))
      ⟨5000, ("09121234567"), false, false, ChargeType.direct⟩ 1 2 3
      UpstreamOutcome.timeout).2.map OutboundCall.timeout = [Option.none] ∧
    (process_charge (some ("w"))
      ⟨5000, ("09121234567"), false, false, ChargeType.direct⟩ 1 2 3
      UpstreamOutcome.timeout).2.length = 1 :=
  C2_timeout_behavior (some ("w"))
    ⟨5000, ("09121234567"), false, false, ChargeType.direct⟩ 1 2 3 ("MCI")
    (by decide) (by decide) (by decide) (by decide)

/-- Counterexample to C6 as stated: `raise_for_status` only raises for 4xx
and 5xx, so a final 300 status with a parseable JSONP body is passed
through to the caller as a success, although 300 is not 2xx. -/
theorem C6_counterexample :
    (process_charge (some ("w"))
      ⟨5000, ("09121234567"), false, false, ChargeType.direct⟩ 0 0 0
      (UpstreamOutcome.response 300 ("(\x7b\"status\":\"ok\"\x7d)"))).1 =
      ChargeResult.ok (Json.object [("status", Json.string ("ok"))]) := by
  rfl

/-- C6 as amended: for every upstream status in the 4xx or 5xx range the
endpoint fails with 503 (the `HTTPError` from `raise_for_status` is caught
as a `RequestException`), so the upstream error body is never passed
through as a success. -/
theorem C6_upstream_error_mapping (webId : Option String)
    (req : ChargeRequest) (s0 s1 s2 : Nat) (op : String)
    (code : Nat) (body : String)
    (h1 : webIdMissing webId = false)
    (h2 : 2000 ≤ req.amount ∧ req.amount ≤ 20000)
    (hph : is_valid_phone req.phone = true)
    (hop : get_operator req.phone req.super req.daemi = some op)
    (hcode : 400 ≤ code ∧ code < 600) :
    (process_charge webId req s0 s1 s2
      (UpstreamOutcome.response code body)).1 = ChargeResult.httpError 503 := by
  rw [process_charge_reaches webId req s0 s1 s2
    (UpstreamOutcome.response code body) op h1 h2 hph hop]
  simp [hcode]

/-- Witness for C6 as amended at a simulated upstream 500. -/
theorem C6_upstream_error_mapping_witness :
    (process_charge (some ("w"))
      ⟨5000, ("09121234567"), false, false, ChargeType.direct⟩ 0 0 0
      (UpstreamOutcome.response 500 ("oops"))).1 =
      ChargeResult.httpError 503 :=
  C6_upstream_error_mapping (some ("w"))
    ⟨5000, ("09121234567"), false, false, ChargeType.direct⟩ 0 0 0 ("MCI")
    500 ("oops") (by decide) (by decide) (by decide) (by decide) (by decide)

/-- Counterexample to C3 as stated: with callback name `callback_123` and
the doubly wrapped body, stripping the name and the single outer pair of
parentheses leaves the text `({"status":"ok"})`, which `json.loads`
rejects, so the relay answers 502 instead of returning the JSON object. -/
theorem C3_counterexample :
    unwrap_and_parse ("callback_123")
      ("callback_123((\x7b\"status\":\"ok\"\x7d))") =
      ChargeResult.httpError 502 := by
  rfl

/-- C3 as amended: on the doubly wrapped body the relay fails with 502
(the remainder after one unwrap is not valid JSON); on the singly wrapped
body `callback_123({"status":"ok"})` it unwraps and returns the object
`{"status":"ok"}`. -/
theorem C3_unwrap_rule :
    unwrap_and_parse ("callback_123")
      ("callback_123(\x7b\"status\":\"ok\"\x7d)") =
      ChargeResult.ok (Json.object [("status", Json.string ("ok"))]) ∧
    unwrap_and_parse ("callback_123")
      ("callback_123((\x7b\"status\":\"ok\"\x7d))") =
      ChargeResult.httpError 502 :=
  ⟨rfl, rfl⟩

/-- C5: for a validated pincode request the payload carries
`data[productId] = "CC-{operator}-{amount}"`; for a direct request no
`data[productId]` key is present. -/
theorem C5_productId (webId : Option String) (req : ChargeRequest)
    (s0 s1 s2 : Nat) (up : UpstreamOutcome) (op : String)
    (h1 : webIdMissing webId = false)
    (h2 : 2000 ≤ req.amount ∧ req.amount ≤ 20000)
    (hph : is_valid_phone req.phone = true)
    (hop : get_operator req.phone req.super req.daemi = some op) :
    (req.charge_type = ChargeType.pincode →
      ∃ call, (process_charge webId req s0 s1 s2 up).2 = [call] ∧
        call.params.lookup ("data[productId]") =
          some (PValue.str ("CC-" ++ op ++ "-" ++ toString req.amount)))
    ∧ (req.charge_type = ChargeType.direct →
      ∃ call, (process_charge webId req s0 s1 s2 up).2 = [call] ∧
        call.params.lookup ("data[productId]") = Option.none) := by
  obtain ⟨amt, ph, sup, dae, ct⟩ := req
  rw [process_charge_reaches webId _ s0 s1 s2 up op h1 h2 hph hop]
  constructor <;> intro hct <;> cases hct <;> exact ⟨_, rfl, rfl⟩

/-- Witness for C5: operator MTN with amount 5000 and charge type pincode
yields `productId = "CC-MTN-5000"`. -/
theorem C5_productId_witness :
    ∃ call, (process_charge (some ("w"))
      ⟨5000, ("09031234567"), false, false, ChargeType.pincode⟩ 0 0 0
      UpstreamOutcome.timeout).2 = [call] ∧
      call.params.lookup ("data[productId]") =
        some (PValue.str ("CC-MTN-5000")) := by
  obtain ⟨hpin, _⟩ := C5_productId (some ("w"))
    ⟨5000, ("09031234567"), false, false, ChargeType.pincode⟩ 0 0 0
    UpstreamOutcome.timeout ("MTN") (by decide) (by decide) (by decide)
    (by decide)
  obtain ⟨call, htr, hl⟩ := hpin rfl
  exact ⟨call, htr, hl⟩

/-- C8: every payload actually sent upstream carries the fixed base
parameter set of `build_params` (webservice identifier, redirect URL,
count 1, empty reseller placeholders, the protocol flags, the constant
script version, and a fresh 13-digit `_` nonce) together with the
per-request `amount`, `cellphone` and `type` fields. -/
theorem C8_payload_base (webId : Option String) (req : ChargeRequest)
    (s0 s1 s2 : Nat) (up : UpstreamOutcome) (op : String)
    (h1 : webIdMissing webId = false)
    (h2 : 2000 ≤ req.amount ∧ req.amount ≤ 20000)
    (hph : is_valid_phone req.phone = true)
    (hop : get_operator req.phone req.super req.daemi = some op) :
    ∃ call, (process_charge webId req s0 s1 s2 up).2 = [call] ∧
      call.params.lookup ("data[webserviceId]") = some (pvalOfWebId webId) ∧
      call.params.lookup ("data[redirectUrl]") =
        some (PValue.str REDIRECT_URL) ∧
      call.params.lookup ("data[count]") = some (PValue.int 1) ∧
      call.params.lookup ("data[email]") = some (PValue.str ("")) ∧
      call.params.lookup ("data[packageId]") = some (PValue.str ("")) ∧
      call.params.lookup ("data[billId]") = some (PValue.str ("")) ∧
      call.params.lookup ("data[paymentId]") = some (PValue.str ("")) ∧
      call.params.lookup ("data[issuer]") = some (PValue.str ("")) ∧
      call.params.lookup ("data[ChargeKind]") = some (PValue.str ("")) ∧
      call.params.lookup ("data[paymentDetails]") = some (PValue.str ("true")) ∧
      call.params.lookup ("data[redirectToPage]") = some (PValue.str ("true")) ∧
      call.params.lookup ("data[scriptVersion]") =
        some (PValue.str ("Script-fluent-1.7")) ∧
      call.params.lookup ("data[firstOutputType]") =
        some (PValue.str ("json")) ∧
      call.params.lookup ("data[isTarabord]") = some (PValue.str ("false")) ∧
      call.params.lookup ("data[secondOutputType]") =
        some (PValue.str ("get")) ∧
      call.params.lookup ("_") =
        some (PValue.int (randint 1111111111111 9999999999999 s0)) ∧
      1111111111111 ≤ randint 1111111111111 9999999999999 s0 ∧
      randint 1111111111111 9999999999999 s0 ≤ 9999999999999 ∧
      call.params.lookup ("data[amount]") = some (PValue.int req.amount) ∧
      call.params.lookup ("data[cellphone]") = some (PValue.str req.phone) ∧
      call.params.lookup ("data[type]") = some (PValue.str op) := by
  rw [process_charge_reaches webId req s0 s1 s2 up op h1 h2 hph hop]
  exact ⟨_, rfl, rfl, rfl, rfl, rfl, rfl, rfl, rfl, rfl, rfl, rfl, rfl, rfl,
    rfl, rfl, rfl, rfl,
    (randint_mem 1111111111111 9999999999999 s0 (by norm_num)).1,
    (randint_mem 1111111111111 9999999999999 s0 (by norm_num)).2,
    rfl, rfl, rfl⟩

/-- Witness for C8 at a concrete request: the single recorded call carries
`data[count] = 1` and the request's amount. -/
theorem C8_payload_base_witness :
    ∃ call, (process_charge (some ("w"))
      ⟨5000, ("09121234567"), false, false, ChargeType.direct⟩ 7 0 0
      UpstreamOutcome.timeout).2 = [call] ∧
      call.params.lookup ("data[count]") = some (PValue.int 1) ∧
      call.params.lookup ("data[amount]") = some (PValue.int 5000) := by
  obtain ⟨call, htr, h⟩ := C8_payload_base (some ("w"))
    ⟨5000, ("09121234567"), false, false, ChargeType.direct⟩ 7 0 0
    UpstreamOutcome.timeout ("MCI") (by decide) (by decide) (by decide)
    (by decide)
  exact ⟨call, htr, h.2.2.1, h.2.2.2.2.2.2.2.2.2.2.2.2.2.2.2.2.2.2.1⟩

/-- C10: the JSONP callback name is the literal vendor tag followed by a
10-digit draw, an underscore and a second 10-digit draw, both in
`[1111111111, 9999999999]`; it is sent as the `callback` parameter of the
single outbound call, and the relay strips exactly its first occurrence
from the response body before unwrapping. -/
theorem C10_callback_format (webId : Option String) (req : ChargeRequest)
    (s0 s1 s2 : Nat) (op : String) (code : Nat) (body : String)
    (h1 : webIdMissing webId = false)
    (h2 : 2000 ≤ req.amount ∧ req.amount ≤ 20000)
    (hph : is_valid_phone req.phone = true)
    (hop : get_operator req.phone req.super req.daemi = some op)
    (hcode : ¬ (400 ≤ code ∧ code < 600)) :
    callback_name_of s1 s2 =
      "Shayan Golmezerji" ++ toString (randint 1111111111 9999999999 s1) ++
        "_" ++ toString (randint 1111111111 9999999999 s2) ∧
    1111111111 ≤ randint 1111111111 9999999999 s1 ∧
    randint 1111111111 9999999999 s1 ≤ 9999999999 ∧
    1111111111 ≤ randint 1111111111 9999999999 s2 ∧
    randint 1111111111 9999999999 s2 ≤ 9999999999 ∧
    (∃ call, (process_charge webId req s0 s1 s2
        (UpstreamOutcome.response code body)).2 = [call] ∧
      call.params.lookup ("callback") =
        some (PValue.str (callback_name_of s1 s2))) ∧
    (process_charge webId req s0 s1 s2
        (UpstreamOutcome.response code body)).1 =
      parse_wrapped
        (String.mk (dropFirstOcc (callback_name_of s1 s2).data body.data)) := by
  obtain ⟨amt, ph, sup, dae, ct⟩ := req
  rw [process_charge_reaches webId _ s0 s1 s2
    (UpstreamOutcome.response code body) op h1 h2 hph hop]
  refine ⟨rfl,
    (randint_mem 1111111111 9999999999 s1 (by norm_num)).1,
    (randint_mem 1111111111 9999999999 s1 (by norm_num)).2,
    (randint_mem 1111111111 9999999999 s2 (by norm_num)).1,
    (randint_mem 1111111111 9999999999 s2 (by norm_num)).2,
    ⟨_, rfl, ?_⟩, ?_⟩
  · cases ct <;> rfl
  · show (if 400 ≤ code ∧ code < 600 then ChargeResult.httpError 503
        else unwrap_and_parse (callback_name_of s1 s2) body) =
      parse_wrapped
        (String.mk (dropFirstOcc (callback_name_of s1 s2).data body.data))
    rw [if_neg hcode]
    rfl

/-- Witness for C10 at a concrete valid request and a 200 response. -/
theorem C10_callback_format_witness :
    ∃ call, (process_charge (some ("w"))
      ⟨5000, ("09121234567"), false, false, ChargeType.direct⟩ 0 4 5
      (UpstreamOutcome.response 200 ("x"))).2 = [call] ∧
      call.params.lookup ("callback") =
        some (PValue.str (callback_name_of 4 5)) := by
  obtain ⟨-, -, -, -, -, hcb, -⟩ := C10_callback_format (some ("w"))
    ⟨5000, ("09121234567"), false, false, ChargeType.direct⟩ 0 4 5 ("MCI")
    200 ("x") (by decide) (by decide) (by decide) (by decide) (by decide)
  exact hcb

end ChargeAPI
